import Mathlib

/-!
Verification of the NetworkAutomation workflow execution engine.

This file is a shallow embedding, in Lean 4, of the engine implemented in
`automation/tasks.py` (orchestrator `execute_workflow` and stage runner
`execute_workflow_stage`) and `automation/ssh_utils.py` (device command
executor `execute_command_on_device`, ssh connection layer, and output
validator `validate_output`).

Modelling conventions:
- Python strings are Lean `String`s; the Python string operations used by the
  source (`str.replace`, the `in` substring test, `str.lower`) are implemented
  over `List Char` so that all definitions evaluate inside the kernel.
  `str.lower` is modelled on the ASCII fragment, which covers every operator
  string the source compares against.
- The CPython `re` module is modelled as an explicit `RegexEngine` parameter
  carrying `re.search` and `re.fullmatch` (with the `MULTILINE | DOTALL` flags
  the source always passes).  Each call either returns `Option String` (the
  matched text of `match.group()`, or `none` when there is no match) or raises
  `re.error` for a syntactically invalid pattern, modelled with `Except`.
- Python exceptions are modelled with `Except String`, carrying `str(e)`.
- The Django ORM is modelled as explicit state: a `WorldState` holds the
  in-memory `WorkflowExecution` row, its last persisted copy, the persisted
  `CommandExecution` rows, the audit of `save()` calls on the execution row,
  the webhook events handed to `WebhookManager.send_webhook_notification`
  (which, per `webhook_utils.py`, swallows every exception internally), and
  the trace of device command invocations.  Store operations themselves do
  not fail in this model.
- The Celery `self.update_state` progress calls are the orchestrator-level
  operations allowed to raise in this model (broker failures); they are
  driven by an oracle keyed by the progress label the source passes.
-/

/-! ## Python string primitives, over `List Char` -/

/-- ASCII case folding of one character, the fragment of `str.lower` exercised
by the source (validation operator names are ASCII identifiers). -/
def asciiLower (c : Char) : Char :=
  if 65 ≤ c.toNat ∧ c.toNat ≤ 90 then Char.ofNat (c.toNat + 32) else c

/-- Python `s.lower()` on the ASCII fragment. -/
def pyLower (s : String) : String :=
  ⟨s.toList.map asciiLower⟩

/-- Python `sub in s` (substring containment) on character lists. -/
def pyContainsList (pat : List Char) : List Char → Bool
  | [] => pat.isEmpty
  | c :: cs => pat.isPrefixOf (c :: cs) || pyContainsList pat cs

/-- Python `sub in s` (substring containment). -/
def pyContains (s sub : String) : Bool :=
  pyContainsList sub.toList s.toList

/-- Fuelled core of Python `str.replace`: replace leftmost, non-overlapping
occurrences of `pat` by `repl`.  The fuel is the length of the subject string,
which suffices because every step with a non-empty `pat` consumes at least one
character of the subject. -/
def pyReplaceFuel (pat repl : List Char) : Nat → List Char → List Char
  | _, [] => []
  | 0, l => l
  | Nat.succ fuel, c :: cs =>
      if pat.isPrefixOf (c :: cs) then
        repl ++ pyReplaceFuel pat repl fuel ((c :: cs).drop pat.length)
      else
        c :: pyReplaceFuel pat repl fuel cs

/-- Python `s.replace(pat, repl)` for a non-empty `pat` (the engine only ever
replaces placeholder tokens of the form `\x7b\x7bname\x7d\x7d`, which are never
empty; the empty-pattern case is therefore mapped to the identity). -/
def pyReplace (s pat repl : String) : String :=
  if pat.toList = [] then s
  else ⟨pyReplaceFuel pat.toList repl.toList s.toList.length s.toList⟩

/-! ## The output validator (`ssh_utils.validate_output`) -/

/-- The fragment of the CPython `re` module the validator calls: `re.search`
and `re.fullmatch`, both with `re.MULTILINE | re.DOTALL`.  A call takes the
pattern and the subject and either returns the matched text (`match.group()`),
`none` for no match, or raises `re.error` on a syntactically invalid pattern
(modelled as `Except.error` carrying `str(e)`). -/
structure RegexEngine where
  search : String → String → Except String (Option String)
  fullmatch : String → String → Except String (Option String)

/-- A validation rule dictionary as built by the stage runner: the optional
`regex` entry, the optional `operator` entry, and whether an `ai_validation`
key is present (the stage runner never adds one, but `validate_output`
checks for it). -/
structure ValidationRule where
  regex : Option String := none
  operator : Option String := none
  ai_validation : Bool := false
deriving DecidableEq, Repr

/-- The `try:` body of `validate_output` (`ssh_utils.py` lines 158-196).
`aiKey` models `settings.AI_API_KEY` being configured. -/
def validateOutputBody (engine : RegexEngine) (aiKey : Bool)
    (output : String) (rule : ValidationRule) : Except String (Bool × String) := do
  match rule.regex with
  | some pattern =>
      let mtch ← engine.search pattern output
      let operator := pyLower (rule.operator.getD "contains")
      if operator = "contains" then
        pure (mtch.isSome, mtch.getD "")
      else if operator = "equal" then
        let full_match ← engine.fullmatch pattern output
        pure (full_match.isSome, full_match.getD "")
      else if operator = "not_equal" then
        let full_match ← engine.fullmatch pattern output
        pure (!full_match.isSome,
          if !full_match.isSome then "Output does not match pattern"
          else "Output matches pattern (validation failed)")
      else if operator = "not_contains" then
        pure (!mtch.isSome,
          if !mtch.isSome then "Pattern not found (validation passed)"
          else "Pattern found (validation failed)")
      else
        pure (mtch.isSome, mtch.getD "")
  | none =>
      if rule.ai_validation && aiKey then
        pure (true, "AI validation passed")
      else
        pure (true, "No validation rules provided")

/-- `ssh_utils.validate_output`: the body above wrapped in the
`except Exception as e: return False, str(e)` handler. -/
def validate_output (engine : RegexEngine) (aiKey : Bool)
    (output : String) (rule : ValidationRule) : Bool × String :=
  match validateOutputBody engine aiKey output rule with
  | .ok r => r
  | .error e => (false, e)

/-- A regex engine fragment for the concrete runs in this file.  All concrete
patterns used below are either literal strings without regex metacharacters —
for which CPython `re.search` finds the leftmost occurrence (whose
`match.group()` is the pattern itself) and `re.fullmatch` matches exactly when
the whole subject equals the pattern — or the pattern `"("`, which is
syntactically invalid and makes both calls raise
`re.error("missing ), unterminated subpattern at position 0")`. -/
def modelEngine : RegexEngine where
  search := fun pattern output =>
    if pattern = "(" then .error "missing ), unterminated subpattern at position 0"
    else .ok (if pyContains output pattern then some pattern else none)
  fullmatch := fun pattern output =>
    if pattern = "(" then .error "missing ), unterminated subpattern at position 0"
    else .ok (if output = pattern then some pattern else none)

/-! ## The dynamic parameter resolver (`tasks.py` lines 181-192) -/

/-- The placeholder token `\x7b\x7bname\x7d\x7d` built by
`f"\x7b\x7b\x7b\x7b\x7bparam_name\x7d\x7d\x7d\x7d\x7d"` in the source. -/
def placeholderOf (name : String) : String :=
  "\x7b\x7b" ++ name ++ "\x7d\x7d"

/-- The dynamic-pattern substitution loop of the stage runner: for each
`(param_name, param_value)` pair in insertion order, if the placeholder occurs
in the pattern accumulated so far, replace every occurrence of it.  Python
dicts iterate in insertion order, so `params` is an association list. -/
def resolveDynamicPattern (pattern : String) (params : List (String × String)) : String :=
  params.foldl
    (fun acc p =>
      if pyContains acc (placeholderOf p.1) then pyReplace acc (placeholderOf p.1) p.2
      else acc)
    pattern

/-! ## Data model: commands, results, execution record, world state -/

/-- A command entry of a workflow stage list, as consumed by the stage runner
(`tasks.py` lines 142-148): either a bare string, or a dict whose fields model
`.get('command', '')`, `.get('regex_pattern', '')`, the optional `operator`
key, and `.get('is_dynamic', False)`. -/
structure CommandDict where
  command : String := ""
  regex_pattern : String := ""
  operator : Option String := none
  is_dynamic : Bool := false
deriving DecidableEq, Repr

/-- `command_data`: a string command or a dict command. -/
inductive CommandData
  | str (s : String)
  | dict (d : CommandDict)
deriving DecidableEq, Repr

/-- The `command` extracted at `tasks.py` lines 143-147. -/
def CommandData.commandOf : CommandData → String
  | .str s => s
  | .dict d => d.command

/-- The `regex_pattern` extracted at `tasks.py` lines 143-148. -/
def CommandData.regexOf : CommandData → String
  | .str _ => ""
  | .dict d => d.regex_pattern

/-- `str(command_data)` as used in the per-command exception branch; for a
dict this stands for the Python dict repr (no claim inspects its text). -/
def CommandData.pyStr : CommandData → String
  | .str s => s
  | .dict d => "dict(" ++ d.command ++ ")"

/-- One entry of the per-stage `results` list built by the stage runner
(`tasks.py` lines 167-173, 194-195, 225-229).  Optional fields model dict
keys that are absent in some branches; `success` is present in every branch. -/
structure StageResult where
  command : String
  success : Bool
  output : Option String := none
  validation_passed : Option Bool := none
  validation_result : Option String := none
  regex_pattern : Option String := none
  error : Option String := none
deriving DecidableEq, Repr

/-- The per-result conjunct of the stage runner's final
`all(result.get('success', False) and result.get('validation_passed', True) ...)`
(`tasks.py` line 249). -/
def StageResult.passOk (r : StageResult) : Bool :=
  r.success && r.validation_passed.getD true

/-- A persisted `CommandExecution` row (`models.py`), with the fields the
stage runner writes. -/
structure CommandExecutionRec where
  command : String
  stage : String
  status : String
  output : Option String := none
  error_output : Option String := none
  validation_result : Option String := none
  started_at : Option Nat := none
  completed_at : Option Nat := none
deriving DecidableEq, Repr

/-- A `WorkflowExecution` row, restricted to the fields the engine reads or
writes.  Defaults are the model-field defaults (`models.py` lines 204-214);
the per-stage result blobs start out unset (`none`), timestamps are abstract
clock ticks. -/
structure ExecutionRecord where
  status : String := "pending"
  current_stage : String := "pre_check"
  error_message : Option String := none
  started_at : Option Nat := none
  completed_at : Option Nat := none
  dynamic_params : List (String × String) := []
  pre_check_results : Option (List StageResult) := none
  implementation_results : Option (List StageResult) := none
  post_check_results : Option (List StageResult) := none
  rollback_results : Option (List StageResult) := none
deriving DecidableEq, Repr

/-- The explicit state threaded through the engine: the in-memory execution
row, its last persisted copy (`db`), the persisted `CommandExecution` rows,
the audit trail of `workflow_execution.save()` calls, the webhook events
emitted, the trace of device command invocations as `(stage, command)` pairs,
and an abstract clock for `timezone.now()`. -/
structure WorldState where
  execution : ExecutionRecord
  db : ExecutionRecord
  cmdDb : List CommandExecutionRec := []
  saves : List ExecutionRecord := []
  events : List String := []
  trace : List (String × String) := []
  clock : Nat := 0
deriving DecidableEq, Repr

/-- `workflow_execution.save()`: persist the in-memory row and record the
save in the audit trail. -/
@[reducible] def saveExecution (st : WorldState) : WorldState :=
  { st with db := st.execution, saves := st.saves ++ [st.execution] }

/-- Apply an update to the in-memory execution row and save it. -/
@[reducible] def setAndSave (f : ExecutionRecord → ExecutionRecord) (st : WorldState) : WorldState :=
  saveExecution { st with execution := f st.execution }

/-- `WebhookManager.send_webhook_notification(workflow_execution, event)`:
per `webhook_utils.py` it swallows every exception internally, so it is
modelled as an infallible append of the event to the sink. -/
@[reducible] def emitEvent (event : String) (st : WorldState) : WorldState :=
  { st with events := st.events ++ [event] }

/-- The outcome of one `execute_command_on_device` call as seen by the stage
runner: either the returned `(success, output)` pair, or an exception
propagating out of the call (caught by the stage runner's per-command
handler). -/
inductive ExecOutcome
  | result (success : Bool) (output : String)
  | raise (msg : String)
deriving DecidableEq, Repr

/-- The environment oracle driving one workflow run: `exec n` is the outcome
of the `n`-th device command invocation, and `updateState label` is `some e`
when the Celery `self.update_state` call with progress label `label` raises
`e` (and `none` when it succeeds). -/
structure Oracle where
  exec : Nat → ExecOutcome
  updateState : String → Option String

/-- Ambient configuration: the regex engine and whether `settings.AI_API_KEY`
is configured. -/
structure Env where
  engine : RegexEngine
  aiKey : Bool := false

/-- The stages for which a failed validation or a per-command exception makes
the stage runner return early (`tasks.py` lines 207-212 and 232-233). -/
def isCriticalStage (stage : String) : Bool :=
  stage = "pre_check" || stage = "implementation" || stage = "post_check"

/-! ## The stage runner (`tasks.py` execute_workflow_stage) -/

/-- The validation rule built at `tasks.py` lines 177-192: `regex` is the
stored pattern, `operator` is copied from a dict command when present, and
for a dict command flagged `is_dynamic` with a non-empty dynamic-params map
the pattern is replaced by its dynamic resolution. -/
def buildValidationRule (dynParams : List (String × String)) (cd : CommandData) : ValidationRule :=
  let rule : ValidationRule := { regex := some cd.regexOf }
  let rule : ValidationRule :=
    match cd with
    | .dict d => { rule with operator := d.operator }
    | .str _ => rule
  match cd with
  | .dict d =>
      if d.is_dynamic then
        if !dynParams.isEmpty then
          { rule with regex := some (resolveDynamicPattern cd.regexOf dynParams) }
        else rule
      else rule
  | .str _ => rule

/-- The outcome of processing one command in the stage loop. -/
structure StepOut where
  result : StageResult
  records : List CommandExecutionRec
  stop : Bool
  clockAfter : Nat
deriving DecidableEq, Repr

/-- One iteration of the stage runner's command loop (`tasks.py` lines
140-233), given the outcome of the device call: create the `CommandExecution`
row, run the command, update the row, append the result entry, validate when
a pattern is present, and decide whether the loop returns early (`stop`).
When the device call raises, the freshly created row is left in status
`running` and a second, failed row is created by the handler. -/
def processCommand (env : Env) (dynParams : List (String × String)) (stage : String)
    (clock : Nat) (outcome : ExecOutcome) (cd : CommandData) : StepOut :=
  let command := cd.commandOf
  let regex_pattern := cd.regexOf
  let created : CommandExecutionRec :=
    { command := command, stage := stage, status := "running", started_at := some clock }
  match outcome with
  | .raise e =>
      let exceptRec : CommandExecutionRec :=
        { command := cd.pyStr, stage := stage, status := "failed",
          error_output := some e, completed_at := some (clock + 1) }
      let res : StageResult := { command := cd.pyStr, success := false, error := some e }
      { result := res, records := [created, exceptRec],
        stop := isCriticalStage stage, clockAfter := clock + 2 }
  | .result success output =>
      let updated : CommandExecutionRec :=
        { created with
          status := if success then "completed" else "failed",
          output := some output, completed_at := some (clock + 1) }
      if regex_pattern = "" then
        let res : StageResult :=
          { command := command, success := success, output := some output,
            validation_passed := some true, regex_pattern := some regex_pattern }
        { result := res, records := [updated], stop := false, clockAfter := clock + 2 }
      else
        let rule := buildValidationRule dynParams cd
        let v := validate_output env.engine env.aiKey output rule
        let res : StageResult :=
          { command := command, success := success, output := some output,
            validation_passed := some v.1, validation_result := some v.2,
            regex_pattern := some regex_pattern }
        { result := res, records := [{ updated with validation_result := some v.2 }],
          stop := !v.1 && isCriticalStage stage, clockAfter := clock + 2 }

/-- How the stage runner's command loop finished: running off the end of the
list with the accumulated `results`, or an early `return False`. -/
inductive StageLoopExit
  | completed (results : List StageResult)
  | earlyExit
deriving DecidableEq, Repr

/-- The stage runner's command loop. -/
def stageLoop (env : Env) (oracle : Oracle) (stage : String) :
    List CommandData → List StageResult → WorldState → StageLoopExit × WorldState
  | [], acc, st => (.completed acc, st)
  | cd :: rest, acc, st =>
      let outcome := oracle.exec st.trace.length
      let step := processCommand env st.execution.dynamic_params stage st.clock outcome cd
      let st1 : WorldState :=
        { st with
          cmdDb := st.cmdDb ++ step.records
          trace := st.trace ++ [(stage, cd.commandOf)]
          clock := step.clockAfter }
      if step.stop then (.earlyExit, st1)
      else stageLoop env oracle stage rest (acc ++ [step.result]) st1

/-- The `if/elif` chain at `tasks.py` lines 237-244 that writes the stage
result blob (wrapped, in the source, in a one-key dict whose key is the
constant string `f"{stage_name}_results"`). -/
def setStageResults (stage : String) (rs : List StageResult) (e : ExecutionRecord) :
    ExecutionRecord :=
  if stage = "pre_check" then { e with pre_check_results := some rs }
  else if stage = "implementation" then { e with implementation_results := some rs }
  else if stage = "post_check" then { e with post_check_results := some rs }
  else if stage = "rollback" then { e with rollback_results := some rs }
  else e

/-- `tasks.py` `execute_workflow_stage`: run the command loop; on an early
`return False` nothing further happens; otherwise persist the accumulated
results onto the stage blob, save, and return the `all(...)` aggregate. -/
def execute_workflow_stage (env : Env) (oracle : Oracle) (stage : String)
    (cmds : List CommandData) (st : WorldState) : Bool × WorldState :=
  match stageLoop env oracle stage cmds [] st with
  | (.earlyExit, st1) => (false, st1)
  | (.completed results, st1) =>
      let st2 := setAndSave (setStageResults stage results) st1
      (results.all StageResult.passOk, st2)

/-! ## The orchestrator (`tasks.py` execute_workflow) -/

/-- The four per-stage command lists of a workflow definition, as returned by
`workflow.get_pre_check_commands()` etc. -/
structure WorkflowDef where
  pre_check : List CommandData := []
  implementation : List CommandData := []
  post_check : List CommandData := []
  rollback : List CommandData := []
deriving Repr

/-- `timezone.now()`: the current timestamp is the clock value; reading it
advances the clock. -/
@[reducible] def tickState (st : WorldState) : WorldState :=
  { st with clock := st.clock + 1 }

/-- The world at the start of a run: a fresh execution row (model defaults)
carrying the caller-supplied dynamic parameters, already persisted. -/
@[reducible] def initialState (dynParams : List (String × String)) : WorldState :=
  let e : ExecutionRecord := { dynamic_params := dynParams }
  { execution := e, db := e }

/-- The `try:` body of `execute_workflow` (`tasks.py` lines 17-116): the
staged state machine.  A `.error (e, st)` value is an exception `e`
propagating out of the body with the side effects `st` performed so far;
the only raise sites in this model are the Celery `self.update_state`
progress calls (the store, the webhook sink, and the stage runner itself
do not raise — the stage runner catches its per-command exceptions). -/
def executeWorkflowBody (env : Env) (wf : WorkflowDef) (oracle : Oracle)
    (st : WorldState) : Except (String × WorldState) (String × WorldState) :=
  let t0 := st.clock
  let st := tickState st
  let st := setAndSave (fun ex => { ex with status := "running", started_at := some t0 }) st
  let st := emitEvent "execution_started" st
  match oracle.updateState "Pre-Check" with
  | some e => .error (e, st)
  | none =>
    let pre := execute_workflow_stage env oracle "pre_check" wf.pre_check st
    let st := pre.2
    if !pre.1 then
      let t := st.clock
      let st := tickState st
      let st := setAndSave (fun ex =>
        { ex with
          status := "failed"
          current_stage := "pre_check"
          error_message := some "Pre-check validation failed"
          completed_at := some t }) st
      let st := emitEvent "execution_failed" st
      .ok ("failed", st)
    else
      match oracle.updateState "Implementation" with
      | some e => .error (e, st)
      | none =>
        let impl := execute_workflow_stage env oracle "implementation" wf.implementation st
        let st := impl.2
        if !impl.1 then
          match oracle.updateState "Rollback" with
          | some e => .error (e, st)
          | none =>
            let st := setAndSave (fun ex =>
              { ex with status := "rolling_back", current_stage := "rollback" }) st
            let st := (execute_workflow_stage env oracle "rollback" wf.rollback st).2
            let t := st.clock
            let st := tickState st
            let st := setAndSave (fun ex =>
              { ex with status := "rolled_back", completed_at := some t }) st
            let st := emitEvent "execution_failed" st
            .ok ("rolled_back", st)
        else
          match oracle.updateState "Post-Check" with
          | some e => .error (e, st)
          | none =>
            let post := execute_workflow_stage env oracle "post_check" wf.post_check st
            let st := post.2
            if !post.1 then
              let st := setAndSave (fun ex =>
                { ex with status := "rolling_back", current_stage := "rollback" }) st
              let st := (execute_workflow_stage env oracle "rollback" wf.rollback st).2
              let t := st.clock
              let st := tickState st
              let st := setAndSave (fun ex =>
                { ex with
                  status := "rolled_back"
                  error_message := some "Post-check validation failed"
                  completed_at := some t }) st
              let st := emitEvent "execution_failed" st
              .ok ("rolled_back", st)
            else
              let t := st.clock
              let st := tickState st
              let st := setAndSave (fun ex =>
                { ex with
                  status := "completed"
                  current_stage := "completed"
                  completed_at := some t }) st
              let st := emitEvent "execution_completed" st
              .ok ("success", st)

/-- `tasks.py` `execute_workflow`: the body wrapped in the top-level
`except Exception as e:` handler (lines 121-131), which re-fetches the
persisted row, marks it failed with the exception text and a completion
timestamp, and saves it.  The returned string is the `status` entry of the
task's return dict.  No exception escapes this function: its type is total. -/
def execute_workflow (env : Env) (wf : WorkflowDef) (oracle : Oracle)
    (dynParams : List (String × String)) : String × WorldState :=
  match executeWorkflowBody env wf oracle (initialState dynParams) with
  | .ok r => r
  | .error (e, st) =>
      let t := st.clock
      let st := tickState st
      let failed : ExecutionRecord :=
        { st.db with
          status := "failed"
          error_message := some e
          completed_at := some t }
      let st := saveExecution { st with execution := failed }
      ("error", st)

/-! ## The device command executor (`ssh_utils.execute_command_on_device`) -/

/-- A `Device` row, restricted to the fields the executor reads.  Empty
strings model absent values (Python truthiness). -/
structure Device where
  name : String := ""
  ip_address : String := ""
  ssh_port : Nat := 22
  enable_password : String := ""
deriving DecidableEq, Repr

/-- How the underlying `paramiko.SSHClient.connect` call ends, discriminated
exactly as by the `except` clauses of `SSHConnection.connect`
(`ssh_utils.py` lines 46-54). -/
inductive ConnectOutcome
  | ok
  | authFail
  | sshFail (msg : String)
  | otherFail (msg : String)
deriving DecidableEq, Repr

/-- How the shell send/recv sequence of `SSHConnection.execute_command` ends:
the drained output, or an exception caught by its handler
(`ssh_utils.py` lines 61-77). -/
inductive SendOutcome
  | output (s : String)
  | raiseInSend (msg : String)
deriving DecidableEq, Repr

/-- The transport-level environment of one `execute_command_on_device` call:
the TACACS environment variables (empty string models unset or empty, both
falsy in the `if not ...` check), the connect outcome, whether the enable-mode
escalation succeeds internally (its result is ignored by the caller), and the
send outcome. -/
structure TransportOracle where
  tacacsUser : String := ""
  tacacsPass : String := ""
  tacacsEnable : String := ""
  connect : ConnectOutcome := .ok
  enableOk : Bool := true
  send : SendOutcome := .output ""
deriving DecidableEq, Repr

/-- Python truthiness of a string: `not s` is true for `None` and `""`,
both modelled as `""`. -/
def pyTruthy (s : String) : Bool := s ≠ ""

/-- `SSHConnection.connect`: every exception class is caught and converted
to `False`; only a clean connect returns `True`. -/
def sshConnect (o : TransportOracle) : Bool :=
  match o.connect with
  | .ok => true
  | .authFail => false
  | .sshFail _ => false
  | .otherFail _ => false

/-- `SSHConnection.execute_command`: called only while connected; either
returns the drained output, or catches its exception and returns
`(False, str(e))`. -/
def sshExecuteCommand (o : TransportOracle) : Bool × String :=
  match o.send with
  | .output s => (true, s)
  | .raiseInSend m => (false, m)

/-- The `try:` body of `execute_command_on_device` (`ssh_utils.py` lines
133-149).  Alongside the returned pair it reports the list of command texts
actually sent to the device shell (to express the no-retry property).  Every
constituent call catches its own exceptions, so the body never raises; the
`Except` layer mirrors the outer `except Exception` handler at lines 151-153,
which is consequently unreachable in this model.  The enable-mode escalation
(`ssh.enable_privilege_mode()` at lines 136-137, attempted when the device has
an `enable_password`) catches its own exceptions and its Boolean result is
discarded by the caller, so it has no effect on the returned value and no
separate observable in this model (`TransportOracle.enableOk` records its
internal outcome). -/
def executeCommandBody (o : TransportOracle) (device : Device) (command : String) :
    Except String ((Bool × String) × List String) :=
  if sshConnect o then
    pure (sshExecuteCommand o, [command])
  else
    pure ((false, "Failed to connect to device"), [])

/-- `ssh_utils.execute_command_on_device`: check the TACACS environment
credentials, then run the body under the outer exception handler. -/
def execute_command_on_device (o : TransportOracle) (device : Device) (command : String) :
    (Bool × String) × List String :=
  if !pyTruthy o.tacacsUser || !pyTruthy o.tacacsPass then
    ((false, "TACACS credentials not configured"), [])
  else
    match executeCommandBody o device command with
    | .ok r => r
    | .error e => ((false, e), [])

/-! ## Anchor views of the orchestrator's sequential states -/

/-- The world right after `execute_workflow`'s start segment (`tasks.py`
lines 24-29): status `running`, started, saved, `execution_started` emitted. -/
@[reducible] def afterStart (dynP : List (String × String)) : WorldState :=
  emitEvent "execution_started"
    (setAndSave
      (fun ex =>
        { ex with status := "running", started_at := some ((initialState dynP).clock) })
      (tickState (initialState dynP)))

/-- The pre-check stage run, as performed by the orchestrator. -/
@[reducible] def preStage (env : Env) (wf : WorkflowDef) (oracle : Oracle)
    (dynP : List (String × String)) : Bool × WorldState :=
  execute_workflow_stage env oracle "pre_check" wf.pre_check (afterStart dynP)

/-- The implementation stage run, as performed by the orchestrator after a
passed pre-check. -/
@[reducible] def implStage (env : Env) (wf : WorkflowDef) (oracle : Oracle)
    (dynP : List (String × String)) : Bool × WorldState :=
  execute_workflow_stage env oracle "implementation" wf.implementation
    (preStage env wf oracle dynP).2

/-- The post-check stage run, as performed by the orchestrator after a passed
implementation. -/
@[reducible] def postStage (env : Env) (wf : WorkflowDef) (oracle : Oracle)
    (dynP : List (String × String)) : Bool × WorldState :=
  execute_workflow_stage env oracle "post_check" wf.post_check
    (implStage env wf oracle dynP).2

/-- The top-level `except Exception` handler (`tasks.py` lines 121-131),
given the exception text and the world at the raise point. -/
def recoverFrom (e : String) (st : WorldState) : String × WorldState :=
  let t := st.clock
  let st := tickState st
  let failed : ExecutionRecord :=
    { st.db with
      status := "failed"
      error_message := some e
      completed_at := some t }
  ("error", saveExecution { st with execution := failed })

/-- The pre-check-failed branch (`tasks.py` lines 37-49). -/
def failPreOutcome (st : WorldState) : String × WorldState :=
  let t := st.clock
  let st := tickState st
  let st := setAndSave (fun ex =>
    { ex with
      status := "failed"
      current_stage := "pre_check"
      error_message := some "Pre-check validation failed"
      completed_at := some t }) st
  ("failed", emitEvent "execution_failed" st)

/-- The implementation-failed branch after its progress update (`tasks.py`
lines 60-76). -/
def implFailOutcome (env : Env) (wf : WorkflowDef) (oracle : Oracle)
    (st : WorldState) : String × WorldState :=
  let st := setAndSave (fun ex =>
    { ex with status := "rolling_back", current_stage := "rollback" }) st
  let st := (execute_workflow_stage env oracle "rollback" wf.rollback st).2
  let t := st.clock
  let st := tickState st
  let st := setAndSave (fun ex =>
    { ex with status := "rolled_back", completed_at := some t }) st
  ("rolled_back", emitEvent "execution_failed" st)

/-- The post-check-failed branch (`tasks.py` lines 86-103). -/
def postFailOutcome (env : Env) (wf : WorkflowDef) (oracle : Oracle)
    (st : WorldState) : String × WorldState :=
  let st := setAndSave (fun ex =>
    { ex with status := "rolling_back", current_stage := "rollback" }) st
  let st := (execute_workflow_stage env oracle "rollback" wf.rollback st).2
  let t := st.clock
  let st := tickState st
  let st := setAndSave (fun ex =>
    { ex with
      status := "rolled_back"
      error_message := some "Post-check validation failed"
      completed_at := some t }) st
  ("rolled_back", emitEvent "execution_failed" st)

/-- The all-stages-passed branch (`tasks.py` lines 105-116). -/
def completedOutcome (st : WorldState) : String × WorldState :=
  let t := st.clock
  let st := tickState st
  let st := setAndSave (fun ex =>
    { ex with
      status := "completed"
      current_stage := "completed"
      completed_at := some t }) st
  ("success", emitEvent "execution_completed" st)

/-- The environment never makes a device call raise: every invocation returns
a `(success, output)` pair.  This is the behavior `execute_command_on_device`
itself guarantees (see `executor_error_contract` below); the stage runner is
nonetheless defined against the more general contract because its
per-command `except` handler exists in the source. -/
def Oracle.noRaise (oracle : Oracle) : Prop :=
  ∀ n, ∃ b s, oracle.exec n = .result b s

/-! ## Concrete fixtures used by the counterexamples and witnesses -/

/-- The ambient environment used by the concrete runs: the model regex engine,
no AI key. -/
def modelEnv : Env := { engine := modelEngine }

/-- An oracle whose second device call fails at the transport level and whose
other calls succeed; no progress call raises. -/
def secondCallFailsOracle : Oracle where
  exec := fun n => if n = 1 then .result false "connection refused" else .result true "ok"
  updateState := fun _ => none

/-- Three plain (string) implementation commands, none carrying a validation
pattern. -/
def threePlainCmds : List CommandData :=
  [.str "conf t", .str "vlan 100", .str "name engineering"]

/-- The single accumulated result of the completed-loop witness run below. -/
def rbWitnessResult : StageResult :=
  { command := "no vlan 100"
    success := true
    output := some "ok"
    validation_passed := some true
    regex_pattern := some "" }

/-- The persisted command row of the completed-loop witness run below. -/
def rbWitnessRow : CommandExecutionRec :=
  { command := "no vlan 100"
    stage := "rollback"
    status := "completed"
    output := some "ok"
    started_at := some 0
    completed_at := some 1 }

/-- The world after the completed-loop witness run below. -/
def rbWitnessState : WorldState :=
  { initialState [] with
    cmdDb := [rbWitnessRow]
    trace := [("rollback", "no vlan 100")]
    clock := 2 }

/-- An all-commands-succeed oracle. -/
def allOkOracle : Oracle where
  exec := fun _ => .result true "ok"
  updateState := fun _ => none

/-- An oracle whose every command returns transport success with output
`"down"` (used to make literal validations against `"READY"` fail). -/
def downOutputOracle : Oracle where
  exec := fun _ => .result true "down"
  updateState := fun _ => none

/-- The one-dict-command pre-check list whose validation fails on `"down"`. -/
def readyCheckCmds : List CommandData :=
  [.dict { command := "show status", regex_pattern := "READY" }]

/-- A workflow whose pre-check validation fails against the `"down"` output. -/
def preFailWf : WorkflowDef :=
  { pre_check := readyCheckCmds
    implementation := [.str "conf t"]
    post_check := [.str "show status"]
    rollback := [.str "undo config"] }

/-- A workflow whose single implementation command fails validation against
the `"ok"` output, with two rollback commands. -/
def implFailWf : WorkflowDef :=
  { implementation := [.dict { command := "apply config", regex_pattern := "DONE" }]
    rollback := [.str "undo step 1", .str "undo step 2"] }

/-- An oracle whose Celery progress update for the pre-check raises (for
example, the result broker is unreachable); device calls all succeed. -/
def brokerFailOracle : Oracle where
  exec := fun _ => .result true "ok"
  updateState := fun label => if label = "Pre-Check" then some "broker unreachable" else none

/-! ## Structural lemmas about the stage runner -/

theorem stageLoop_nil (env : Env) (oracle : Oracle) (stage : String)
    (acc : List StageResult) (st : WorldState) :
    stageLoop env oracle stage [] acc st = (.completed acc, st) := rfl

theorem stageLoop_cons (env : Env) (oracle : Oracle) (stage : String)
    (cd : CommandData) (rest : List CommandData) (acc : List StageResult) (st : WorldState) :
    stageLoop env oracle stage (cd :: rest) acc st =
      (let step := processCommand env st.execution.dynamic_params stage st.clock
          (oracle.exec st.trace.length) cd
       let st1 : WorldState :=
         { st with
           cmdDb := st.cmdDb ++ step.records
           trace := st.trace ++ [(stage, cd.commandOf)]
           clock := step.clockAfter }
       if step.stop then (.earlyExit, st1)
       else stageLoop env oracle stage rest (acc ++ [step.result]) st1) := rfl

theorem processCommand_records_stage (env : Env) (dyn : List (String × String))
    (stage : String) (clock : Nat) (outcome : ExecOutcome) (cd : CommandData) :
    ∀ r ∈ (processCommand env dyn stage clock outcome cd).records, r.stage = stage := by
  cases outcome with
  | raise e => simp [processCommand]
  | result b out =>
      by_cases h : cd.regexOf = "" <;> simp [processCommand, h]

theorem processCommand_result_records_len (env : Env) (dyn : List (String × String))
    (stage : String) (clock : Nat) (b : Bool) (out : String) (cd : CommandData) :
    (processCommand env dyn stage clock (.result b out) cd).records.length = 1 := by
  by_cases h : cd.regexOf = "" <;> simp [processCommand, h]

/-- For the `rollback` stage no command ever makes the loop return early:
neither the validation-failure branch nor the exception branch sets `stop`
outside the three critical stages. -/
theorem processCommand_rollback_stop (env : Env) (dyn : List (String × String))
    (clock : Nat) (outcome : ExecOutcome) (cd : CommandData) :
    (processCommand env dyn "rollback" clock outcome cd).stop = false := by
  cases outcome with
  | raise e => simp [processCommand, isCriticalStage]
  | result b out =>
      by_cases h : cd.regexOf = "" <;> simp [processCommand, isCriticalStage, h]

/-- A command whose step stops the loop never counts as passed in the stage
aggregate: a raise records `success = false`, and a stopping validation
records `validation_passed = false`. -/
theorem processCommand_stop_not_pass (env : Env) (dyn : List (String × String))
    (stage : String) (clock : Nat) (outcome : ExecOutcome) (cd : CommandData)
    (h : (processCommand env dyn stage clock outcome cd).stop = true) :
    StageResult.passOk (processCommand env dyn stage clock outcome cd).result = false := by
  cases outcome with
  | raise e => simp [processCommand, StageResult.passOk]
  | result b out =>
      by_cases hre : cd.regexOf = "" <;>
        simp [processCommand, hre, StageResult.passOk] at h ⊢
      exact fun _ => h.1

/-- The command loop only appends: the execution row, its persisted copy, the
save log and the event log pass through untouched, and every appended command
row and trace entry is tagged with the loop's own stage. -/
theorem stageLoop_frame (env : Env) (oracle : Oracle) (stage : String) :
    ∀ (cmds : List CommandData) (acc : List StageResult) (st : WorldState),
      (stageLoop env oracle stage cmds acc st).2.execution = st.execution ∧
      (stageLoop env oracle stage cmds acc st).2.db = st.db ∧
      (stageLoop env oracle stage cmds acc st).2.saves = st.saves ∧
      (stageLoop env oracle stage cmds acc st).2.events = st.events ∧
      (∃ recs, (stageLoop env oracle stage cmds acc st).2.cmdDb = st.cmdDb ++ recs ∧
        ∀ r ∈ recs, r.stage = stage) ∧
      (∃ tr, (stageLoop env oracle stage cmds acc st).2.trace = st.trace ++ tr ∧
        ∀ p ∈ tr, p.1 = stage) := by
  intro cmds
  induction cmds with
  | nil =>
      intro acc st
      rw [stageLoop_nil]
      exact ⟨rfl, rfl, rfl, rfl, ⟨[], by simp, by simp⟩, ⟨[], by simp, by simp⟩⟩
  | cons cd rest ih =>
      intro acc st
      rw [stageLoop_cons]
      set step := processCommand env st.execution.dynamic_params stage st.clock
        (oracle.exec st.trace.length) cd with hstep
      set st1 : WorldState :=
        { st with
          cmdDb := st.cmdDb ++ step.records
          trace := st.trace ++ [(stage, cd.commandOf)]
          clock := step.clockAfter } with hst1
      by_cases hs : step.stop = true
      · rw [if_pos hs]
        refine ⟨rfl, rfl, rfl, rfl, ⟨step.records, rfl, ?_⟩,
          ⟨[(stage, cd.commandOf)], rfl, ?_⟩⟩
        · intro r hr
          exact processCommand_records_stage env st.execution.dynamic_params stage st.clock
            (oracle.exec st.trace.length) cd r (by rw [← hstep]; exact hr)
        · simp
      · rw [if_neg hs]
        obtain ⟨h1, h2, h3, h4, ⟨recs, hrecs, hrst⟩, ⟨tr, htr, htst⟩⟩ :=
          ih (acc ++ [step.result]) st1
        refine ⟨h1, h2, h3, h4, ⟨step.records ++ recs, ?_, ?_⟩,
          ⟨(stage, cd.commandOf) :: tr, ?_, ?_⟩⟩
        · rw [hrecs, hst1]
          simp
        · intro r hr
          rcases List.mem_append.mp hr with hr | hr
          · exact processCommand_records_stage env st.execution.dynamic_params stage st.clock
              (oracle.exec st.trace.length) cd r (by rw [← hstep]; exact hr)
          · exact hrst r hr
        · rw [htr, hst1]
          simp
        · intro p hp
          rcases List.mem_cons.mp hp with hp | hp
          · rw [hp]
          · exact htst p hp

theorem setStageResults_preserves (stage : String) (rs : List StageResult)
    (e : ExecutionRecord) :
    (setStageResults stage rs e).status = e.status ∧
    (setStageResults stage rs e).current_stage = e.current_stage ∧
    (setStageResults stage rs e).error_message = e.error_message ∧
    (setStageResults stage rs e).started_at = e.started_at ∧
    (setStageResults stage rs e).completed_at = e.completed_at ∧
    (setStageResults stage rs e).dynamic_params = e.dynamic_params := by
  unfold setStageResults
  split_ifs <;> simp

theorem setStageResults_rollback_blob (stage : String) (rs : List StageResult)
    (e : ExecutionRecord) (h : stage ≠ "rollback") :
    (setStageResults stage rs e).rollback_results = e.rollback_results := by
  unfold setStageResults
  split_ifs with h1 h2 h3 h4 <;> simp_all

theorem setStageResults_impl_blob (stage : String) (rs : List StageResult)
    (e : ExecutionRecord) (h : stage ≠ "implementation") :
    (setStageResults stage rs e).implementation_results = e.implementation_results := by
  unfold setStageResults
  split_ifs with h1 h2 h3 h4 <;> simp_all

/-- Stage-level frame: whatever a stage run does, the event log is untouched,
the save log and command rows only grow (rows tagged with the stage), the
trace only grows (entries tagged with the stage), and the non-blob fields of
the execution row are preserved. -/
theorem execute_workflow_stage_frame (env : Env) (oracle : Oracle) (stage : String)
    (cmds : List CommandData) (st : WorldState) :
    (execute_workflow_stage env oracle stage cmds st).2.events = st.events ∧
    (execute_workflow_stage env oracle stage cmds st).2.execution.status = st.execution.status ∧
    (execute_workflow_stage env oracle stage cmds st).2.execution.current_stage
      = st.execution.current_stage ∧
    (execute_workflow_stage env oracle stage cmds st).2.execution.error_message
      = st.execution.error_message ∧
    (execute_workflow_stage env oracle stage cmds st).2.execution.started_at
      = st.execution.started_at ∧
    (execute_workflow_stage env oracle stage cmds st).2.execution.completed_at
      = st.execution.completed_at ∧
    (execute_workflow_stage env oracle stage cmds st).2.execution.dynamic_params
      = st.execution.dynamic_params ∧
    (∃ svs, (execute_workflow_stage env oracle stage cmds st).2.saves = st.saves ++ svs) ∧
    (∃ recs, (execute_workflow_stage env oracle stage cmds st).2.cmdDb = st.cmdDb ++ recs ∧
      ∀ r ∈ recs, r.stage = stage) ∧
    (∃ tr, (execute_workflow_stage env oracle stage cmds st).2.trace = st.trace ++ tr ∧
      ∀ p ∈ tr, p.1 = stage) := by
  obtain ⟨hex, hdb, hsv, hev, ⟨recs, hrecs, hrst⟩, ⟨tr, htr, htst⟩⟩ :=
    stageLoop_frame env oracle stage cmds [] st
  unfold execute_workflow_stage
  cases hloop : stageLoop env oracle stage cmds [] st with
  | mk exit st1 =>
    rw [hloop] at hex hsv hev hrecs htr
    cases exit with
    | earlyExit =>
        dsimp only
        exact ⟨hev, by rw [hex], by rw [hex], by rw [hex], by rw [hex], by rw [hex],
          by rw [hex], ⟨[], by simp only [List.append_nil]; exact hsv⟩,
          ⟨recs, hrecs, hrst⟩, ⟨tr, htr, htst⟩⟩
    | completed results =>
        dsimp only [setAndSave, saveExecution]
        obtain ⟨p1, p2, p3, p4, p5, p6⟩ := setStageResults_preserves stage results st1.execution
        exact ⟨hev, by rw [p1, hex], by rw [p2, hex], by rw [p3, hex], by rw [p4, hex],
          by rw [p5, hex], by rw [p6, hex],
          ⟨[setStageResults stage results st1.execution], by rw [hsv]⟩,
          ⟨recs, hrecs, hrst⟩, ⟨tr, htr, htst⟩⟩

/-- The rollback loop never exits early, accumulates exactly one result per
command, and — when no device call raises — appends exactly one command row
per command. -/
theorem stageLoop_rollback_run (env : Env) (oracle : Oracle)
    (hnr : oracle.noRaise) :
    ∀ (cmds : List CommandData) (acc : List StageResult) (st : WorldState),
      ∃ rs st1, stageLoop env oracle "rollback" cmds acc st = (.completed rs, st1) ∧
        rs.length = acc.length + cmds.length ∧
        ∃ recs, st1.cmdDb = st.cmdDb ++ recs ∧ recs.length = cmds.length ∧
          ∀ r ∈ recs, r.stage = "rollback" := by
  intro cmds
  induction cmds with
  | nil =>
      intro acc st
      exact ⟨acc, st, stageLoop_nil env oracle "rollback" acc st, by simp,
        ⟨[], by simp, by simp, by simp⟩⟩
  | cons cd rest ih =>
      intro acc st
      rw [stageLoop_cons]
      set step := processCommand env st.execution.dynamic_params "rollback" st.clock
        (oracle.exec st.trace.length) cd with hstep
      have hstop : step.stop = false := by
        rw [hstep]; exact processCommand_rollback_stop env _ _ _ cd
      rw [if_neg (by simp [hstop])]
      set st1 : WorldState :=
        { st with
          cmdDb := st.cmdDb ++ step.records
          trace := st.trace ++ [("rollback", cd.commandOf)]
          clock := step.clockAfter } with hst1
      obtain ⟨rs, st2, hrun, hlen, ⟨recs, hdb, hreclen, hrtag⟩⟩ := ih (acc ++ [step.result]) st1
      have hsteplen : step.records.length = 1 := by
        obtain ⟨b, s, hbs⟩ := hnr st.trace.length
        rw [hstep, hbs]
        exact processCommand_result_records_len env _ _ _ b s cd
      refine ⟨rs, st2, hrun, by simp at hlen ⊢; omega, ⟨step.records ++ recs, ?_, ?_, ?_⟩⟩
      · rw [hdb, hst1]; simp
      · simp [hsteplen, hreclen, Nat.add_comm]
      · intro r hr
        rcases List.mem_append.mp hr with hr | hr
        · exact processCommand_records_stage env st.execution.dynamic_params "rollback"
            st.clock (oracle.exec st.trace.length) cd r (by rw [← hstep]; exact hr)
        · exact hrtag r hr

/-- Running the rollback stage: the loop completes, the rollback result blob
is persisted with one entry per rollback command, one command row per command
is appended (all tagged `rollback`), and everything else — events, the other
result blobs, the non-blob execution fields — is preserved; the save log
grows. -/
theorem rollback_stage_effects (env : Env) (oracle : Oracle) (hnr : oracle.noRaise)
    (cmds : List CommandData) (st : WorldState) :
    (∃ rs, (execute_workflow_stage env oracle "rollback" cmds st).2.execution.rollback_results
        = some rs ∧ rs.length = cmds.length) ∧
    (execute_workflow_stage env oracle "rollback" cmds st).2.events = st.events ∧
    (execute_workflow_stage env oracle "rollback" cmds st).2.execution.status
      = st.execution.status ∧
    (execute_workflow_stage env oracle "rollback" cmds st).2.execution.current_stage
      = st.execution.current_stage ∧
    (execute_workflow_stage env oracle "rollback" cmds st).2.execution.error_message
      = st.execution.error_message ∧
    (∃ svs, (execute_workflow_stage env oracle "rollback" cmds st).2.saves = st.saves ++ svs) ∧
    (∃ recs, (execute_workflow_stage env oracle "rollback" cmds st).2.cmdDb
        = st.cmdDb ++ recs ∧ recs.length = cmds.length ∧ ∀ r ∈ recs, r.stage = "rollback") := by
  obtain ⟨rs, st1, hrun, hlen, ⟨recs, hdbrec, hreclen, hrtag⟩⟩ :=
    stageLoop_rollback_run env oracle hnr cmds [] st
  obtain ⟨hex, hdb, hsv, hev, _, _⟩ := stageLoop_frame env oracle "rollback" cmds [] st
  rw [hrun] at hex hsv hev
  unfold execute_workflow_stage
  rw [hrun]
  dsimp only [setAndSave, saveExecution]
  obtain ⟨p1, p2, p3, p4, p5, p6⟩ := setStageResults_preserves "rollback" rs st1.execution
  refine ⟨⟨rs, ?_, by simpa using hlen⟩, hev, by rw [p1, hex], by rw [p2, hex],
    by rw [p3, hex], ⟨[setStageResults "rollback" rs st1.execution], by rw [hsv]⟩,
    ⟨recs, hdbrec, hreclen, hrtag⟩⟩
  · simp [setStageResults]

theorem execute_workflow_stage_rollback_blob (env : Env) (oracle : Oracle) (stage : String)
    (cmds : List CommandData) (st : WorldState) (h : stage ≠ "rollback") :
    (execute_workflow_stage env oracle stage cmds st).2.execution.rollback_results
      = st.execution.rollback_results := by
  obtain ⟨hex, _, _, _, _, _⟩ := stageLoop_frame env oracle stage cmds [] st
  unfold execute_workflow_stage
  cases hloop : stageLoop env oracle stage cmds [] st with
  | mk exit st1 =>
    rw [hloop] at hex
    cases exit with
    | earlyExit => dsimp only; rw [hex]
    | completed results =>
        dsimp only [setAndSave, saveExecution]
        rw [setStageResults_rollback_blob stage results st1.execution h, hex]

theorem execute_workflow_stage_impl_blob (env : Env) (oracle : Oracle) (stage : String)
    (cmds : List CommandData) (st : WorldState) (h : stage ≠ "implementation") :
    (execute_workflow_stage env oracle stage cmds st).2.execution.implementation_results
      = st.execution.implementation_results := by
  obtain ⟨hex, _, _, _, _, _⟩ := stageLoop_frame env oracle stage cmds [] st
  unfold execute_workflow_stage
  cases hloop : stageLoop env oracle stage cmds [] st with
  | mk exit st1 =>
    rw [hloop] at hex
    cases exit with
    | earlyExit => dsimp only; rw [hex]
    | completed results =>
        dsimp only [setAndSave, saveExecution]
        rw [setStageResults_impl_blob stage results st1.execution h, hex]

/-- `execute_workflow`, re-expressed through the anchor views above.  This is
a definitional re-reading of the body, used to settle the orchestrator-level
claims. -/
theorem execute_workflow_unfold (env : Env) (wf : WorkflowDef) (oracle : Oracle)
    (dynP : List (String × String)) :
    execute_workflow env wf oracle dynP =
      match oracle.updateState "Pre-Check" with
      | some e => recoverFrom e (afterStart dynP)
      | none =>
          if !(preStage env wf oracle dynP).1 then
            failPreOutcome (preStage env wf oracle dynP).2
          else
            match oracle.updateState "Implementation" with
            | some e => recoverFrom e (preStage env wf oracle dynP).2
            | none =>
                if !(implStage env wf oracle dynP).1 then
                  match oracle.updateState "Rollback" with
                  | some e => recoverFrom e (implStage env wf oracle dynP).2
                  | none => implFailOutcome env wf oracle (implStage env wf oracle dynP).2
                else
                  match oracle.updateState "Post-Check" with
                  | some e => recoverFrom e (implStage env wf oracle dynP).2
                  | none =>
                      if !(postStage env wf oracle dynP).1 then
                        postFailOutcome env wf oracle (postStage env wf oracle dynP).2
                      else
                        completedOutcome (postStage env wf oracle dynP).2 := by
  unfold execute_workflow executeWorkflowBody
  dsimp only
  simp only [postStage, implStage, preStage]
  cases oracle.updateState "Pre-Check" with
  | some e => rfl
  | none =>
      cases hpre : execute_workflow_stage env oracle "pre_check" wf.pre_check
          (afterStart dynP) with
      | mk b1 st1 =>
        cases b1 with
        | false => rfl
        | true =>
          cases oracle.updateState "Implementation" with
          | some e => rfl
          | none =>
            cases himpl : execute_workflow_stage env oracle "implementation"
                wf.implementation st1 with
            | mk b2 st2 =>
              cases b2 with
              | false =>
                  cases oracle.updateState "Rollback" with
                  | some e => rfl
                  | none => rfl
              | true =>
                  cases oracle.updateState "Post-Check" with
                  | some e => rfl
                  | none =>
                    cases hpost : execute_workflow_stage env oracle "post_check"
                        wf.post_check st2 with
                    | mk b3 st3 => cases b3 <;> rfl

/-! ## Helper lemmas on stage-tagged row lists -/

theorem filter_stage_of_all {recs : List CommandExecutionRec} {s t : String}
    (h : ∀ r ∈ recs, r.stage = s) (hne : s ≠ t) :
    recs.filter (fun r => r.stage = t) = [] := by
  induction recs with
  | nil => rfl
  | cons r rest ih =>
      have hr := h r (List.mem_cons_self r rest)
      have hrest := ih fun q hq => h q (List.mem_cons_of_mem r hq)
      simp [List.filter_cons, hr, hne, hrest]

theorem filter_stage_of_all_eq {recs : List CommandExecutionRec} {s : String}
    (h : ∀ r ∈ recs, r.stage = s) :
    recs.filter (fun r => r.stage = s) = recs := by
  induction recs with
  | nil => rfl
  | cons r rest ih =>
      have hr := h r (List.mem_cons_self r rest)
      have hrest := ih fun q hq => h q (List.mem_cons_of_mem r hq)
      simp [List.filter_cons, hr, hrest]

/-! ## Claim theorems -/

/-- C6 counterexample.  The claim quantifies over every `(output, pattern)`
pair, but for the syntactically invalid pattern `"("` CPython `re` raises
`re.error` before the operator branch is reached, so `equal` and `not_equal`
(and likewise `contains` and `not_contains`) BOTH fail at
`(output, pattern) = ("x", "(")` — they are not complements there. -/
theorem validator_complement_counterexample :
    (validate_output modelEngine false "x"
      { regex := some "(", operator := some "equal" }).1 = false ∧
    (validate_output modelEngine false "x"
      { regex := some "(", operator := some "not_equal" }).1 = false ∧
    (validate_output modelEngine false "x"
      { regex := some "(", operator := some "contains" }).1 = false ∧
    (validate_output modelEngine false "x"
      { regex := some "(", operator := some "not_contains" }).1 = false := by
  decide

/-- C6 (amended): for every engine, output and pattern on which the regex
engine does not raise (i.e. every syntactically valid pattern), `not_equal`
passes exactly when `equal` fails, and `not_contains` passes exactly when
`contains` fails. -/
theorem validator_complements (engine : RegexEngine) (aiKey : Bool)
    (output pattern : String) (m fm : Option String)
    (hs : engine.search pattern output = .ok m)
    (hf : engine.fullmatch pattern output = .ok fm) :
    (validate_output engine aiKey output
        { regex := some pattern, operator := some "not_equal" }).1
      = !(validate_output engine aiKey output
        { regex := some pattern, operator := some "equal" }).1 ∧
    (validate_output engine aiKey output
        { regex := some pattern, operator := some "not_contains" }).1
      = !(validate_output engine aiKey output
        { regex := some pattern, operator := some "contains" }).1 := by
  have h1 : pyLower "not_equal" = "not_equal" := by decide
  have h2 : pyLower "equal" = "equal" := by decide
  have h3 : pyLower "not_contains" = "not_contains" := by decide
  have h4 : pyLower "contains" = "contains" := by decide
  constructor <;>
    simp [validate_output, validateOutputBody, hs, hf, h1, h2, h3, h4, Option.getD,
      bind, Except.bind, pure, Except.pure]

/-- C6 witness: a concrete accepted pattern where the complements are
exercised. -/
theorem validator_complements_witness :
    modelEngine.search "UP" "link is UP" = .ok (some "UP") ∧
    modelEngine.fullmatch "UP" "link is UP" = .ok (none : Option String) ∧
    ((validate_output modelEngine false "link is UP"
        { regex := some "UP", operator := some "not_equal" }).1
      = !(validate_output modelEngine false "link is UP"
        { regex := some "UP", operator := some "equal" }).1 ∧
    (validate_output modelEngine false "link is UP"
        { regex := some "UP", operator := some "not_contains" }).1
      = !(validate_output modelEngine false "link is UP"
        { regex := some "UP", operator := some "contains" }).1) :=
  ⟨rfl, rfl,
    validator_complements modelEngine false "link is UP" "UP" (some "UP") none rfl rfl⟩

/-- C10: the validator is total.  Its `try:` body either returns normally —
and `validate_output` returns exactly that value — or raises (e.g. `re.error`
on a malformed pattern), in which case the `except` handler turns the
exception into `(False, str(e))`.  In both cases `validate_output` returns a
plain pair: no exception reaches the stage runner. -/
theorem validate_output_total (engine : RegexEngine) (aiKey : Bool)
    (output : String) (rule : ValidationRule) :
    (∃ r, validateOutputBody engine aiKey output rule = .ok r ∧
      validate_output engine aiKey output rule = r) ∨
    (∃ e, validateOutputBody engine aiKey output rule = .error e ∧
      validate_output engine aiKey output rule = (false, e)) := by
  unfold validate_output
  cases h : validateOutputBody engine aiKey output rule with
  | ok r => exact .inl ⟨r, rfl, rfl⟩
  | error e => exact .inr ⟨e, rfl, rfl⟩

/-- C8: a command with no validation pattern.  At the validator: a rule with
no `regex` entry trivially passes with the explanatory detail string.  At the
stage runner: for a command whose extracted pattern is empty the validator is
never invoked, `validation_passed` is left at `True`, the step never stops
the loop, and the command's contribution to the stage aggregate is exactly
its transport success. -/
theorem no_validation_rule_passes :
    (∀ (engine : RegexEngine) (aiKey : Bool) (output : String) (op : Option String),
      validate_output engine aiKey output { regex := none, operator := op }
        = (true, "No validation rules provided")) ∧
    (∀ (env : Env) (dyn : List (String × String)) (stage : String) (clock : Nat)
        (b : Bool) (out : String) (cd : CommandData), cd.regexOf = "" →
      (processCommand env dyn stage clock (.result b out) cd).result.success = b ∧
      (processCommand env dyn stage clock (.result b out) cd).result.validation_passed
        = some true ∧
      (processCommand env dyn stage clock (.result b out) cd).stop = false ∧
      StageResult.passOk (processCommand env dyn stage clock (.result b out) cd).result
        = b) := by
  constructor
  · intro engine aiKey output op
    simp [validate_output, validateOutputBody, bind, Except.bind, pure, Except.pure]
  · intro env dyn stage clock b out cd h
    simp [processCommand, h, StageResult.passOk]

/-- C8 witness. -/
theorem no_validation_rule_passes_witness :
    validate_output modelEngine false "whatever" { regex := none, operator := none }
      = (true, "No validation rules provided") ∧
    (CommandData.str "show clock").regexOf = "" ∧
    (processCommand { engine := modelEngine } [] "implementation" 0
        (.result false "timeout") (.str "show clock")).stop = false ∧
    StageResult.passOk (processCommand { engine := modelEngine } [] "implementation" 0
        (.result false "timeout") (.str "show clock")).result = false :=
  ⟨no_validation_rule_passes.1 modelEngine false "whatever" none, rfl,
    ((no_validation_rule_passes.2 { engine := modelEngine } [] "implementation" 0
      false "timeout" (.str "show clock") rfl).2.2.1),
    ((no_validation_rule_passes.2 { engine := modelEngine } [] "implementation" 0
      false "timeout" (.str "show clock") rfl).2.2.2)⟩

/-- C7: dynamic parameter resolution.  The spec examples hold concretely
(including multiple occurrences of one placeholder being all replaced, and a
value carried over verbatim with no escaping); a pattern none of whose
parameters occur is returned unchanged (in particular with an empty parameter
map); and the stage runner substitutes the resolved pattern into the
validation rule exactly for dict commands flagged `is_dynamic` with a
non-empty dynamic-params map — a non-dynamic command keeps its stored
pattern. -/
theorem dynamic_resolution :
    resolveDynamicPattern "VLAN \x7b\x7bvlan_id\x7d\x7d" [("vlan_id", "100")] = "VLAN 100" ∧
    resolveDynamicPattern "\x7b\x7bv\x7d\x7d-\x7b\x7bv\x7d\x7d" [("v", "1")] = "1-1" ∧
    resolveDynamicPattern "X \x7b\x7bp\x7d\x7d" [("p", ".*")] = "X .*" ∧
    (∀ (pattern : String) (params : List (String × String)),
      (∀ p ∈ params, pyContains pattern (placeholderOf p.1) = false) →
      resolveDynamicPattern pattern params = pattern) ∧
    (∀ pattern : String, resolveDynamicPattern pattern [] = pattern) ∧
    (∀ (dyn : List (String × String)) (d : CommandDict), d.is_dynamic = false →
      buildValidationRule dyn (.dict d)
        = { regex := some d.regex_pattern, operator := d.operator }) ∧
    (∀ (dyn : List (String × String)) (d : CommandDict), d.is_dynamic = true →
      dyn ≠ [] →
      buildValidationRule dyn (.dict d)
        = { regex := some (resolveDynamicPattern d.regex_pattern dyn),
            operator := d.operator }) := by
  refine ⟨by decide, by decide, by decide, ?_, ?_, ?_, ?_⟩
  · intro pattern params
    induction params with
    | nil => intro _; rfl
    | cons p ps ih =>
        intro h
        have hp := h p (List.mem_cons_self p ps)
        have hrest := ih fun q hq => h q (List.mem_cons_of_mem p hq)
        simp only [resolveDynamicPattern, List.foldl_cons, hp, Bool.false_eq_true,
          if_false] at *
        exact hrest
  · intro pattern; rfl
  · intro dyn d h
    simp [buildValidationRule, CommandData.regexOf, h]
  · intro dyn d h hne
    simp [buildValidationRule, CommandData.regexOf, h, hne]

/-- C7 witness. -/
theorem dynamic_resolution_witness :
    (∀ p ∈ [("vlan_id", "100")],
      pyContains "no placeholder here" (placeholderOf p.1) = false) ∧
    resolveDynamicPattern "no placeholder here" [("vlan_id", "100")]
      = "no placeholder here" ∧
    buildValidationRule [("vlan_id", "100")]
        (.dict { command := "show vlan", regex_pattern := "VLAN \x7b\x7bvlan_id\x7d\x7d",
                 is_dynamic := false })
      = { regex := some "VLAN \x7b\x7bvlan_id\x7d\x7d", operator := none } ∧
    buildValidationRule [("vlan_id", "100")]
        (.dict { command := "show vlan", regex_pattern := "VLAN \x7b\x7bvlan_id\x7d\x7d",
                 is_dynamic := true })
      = { regex := some (resolveDynamicPattern "VLAN \x7b\x7bvlan_id\x7d\x7d"
            [("vlan_id", "100")]), operator := none } :=
  ⟨by decide,
    dynamic_resolution.2.2.2.1 "no placeholder here" [("vlan_id", "100")] (by decide),
    dynamic_resolution.2.2.2.2.2.1 [("vlan_id", "100")]
      { command := "show vlan", regex_pattern := "VLAN \x7b\x7bvlan_id\x7d\x7d",
        is_dynamic := false } rfl,
    dynamic_resolution.2.2.2.2.2.2 [("vlan_id", "100")]
      { command := "show vlan", regex_pattern := "VLAN \x7b\x7bvlan_id\x7d\x7d",
        is_dynamic := true } rfl (by decide)⟩

/-- C9: the device command executor never lets a failure escape as an
exception, and performs no retries.  Its `try:` body always returns normally
(every constituent call catches its own exceptions), missing TACACS
credentials and every connect-failure class are converted to fixed
`(False, diagnostic)` pairs with no command sent, an exception inside the
shell exchange is converted to `(False, str(e))`, and at most one send of the
command text ever happens. -/
theorem executor_error_contract :
    (∀ (o : TransportOracle) (d : Device) (c : String),
      ∃ r, executeCommandBody o d c = .ok r ∧ execute_command_on_device o d c = r ∨
        pyTruthy o.tacacsUser = false ∨ pyTruthy o.tacacsPass = false) ∧
    (∀ (o : TransportOracle) (d : Device) (c : String),
      (execute_command_on_device o d c).2.length ≤ 1) ∧
    (∀ (o : TransportOracle) (d : Device) (c : String),
      pyTruthy o.tacacsUser = false ∨ pyTruthy o.tacacsPass = false →
      execute_command_on_device o d c = ((false, "TACACS credentials not configured"), [])) ∧
    (∀ (o : TransportOracle) (d : Device) (c : String),
      o.connect ≠ .ok → pyTruthy o.tacacsUser = true → pyTruthy o.tacacsPass = true →
      execute_command_on_device o d c = ((false, "Failed to connect to device"), [])) ∧
    (∀ (o : TransportOracle) (d : Device) (c : String) (m : String),
      o.connect = .ok → o.send = .raiseInSend m →
      pyTruthy o.tacacsUser = true → pyTruthy o.tacacsPass = true →
      execute_command_on_device o d c = ((false, m), [c])) ∧
    (∀ (o : TransportOracle) (d : Device) (c : String) (s : String),
      o.connect = .ok → o.send = .output s →
      pyTruthy o.tacacsUser = true → pyTruthy o.tacacsPass = true →
      execute_command_on_device o d c = ((true, s), [c])) := by
  have hbody : ∀ (o : TransportOracle) (d : Device) (c : String),
      ∃ r, executeCommandBody o d c = .ok r := by
    intro o d c
    unfold executeCommandBody
    by_cases h : sshConnect o = true
    · exact ⟨_, by rw [if_pos h]; rfl⟩
    · exact ⟨_, by rw [if_neg h]; rfl⟩
  refine ⟨?_, ?_, ?_, ?_, ?_, ?_⟩
  · intro o d c
    by_cases hu : pyTruthy o.tacacsUser = true
    · by_cases hp : pyTruthy o.tacacsPass = true
      · obtain ⟨r, hr⟩ := hbody o d c
        refine ⟨r, .inl ⟨hr, ?_⟩⟩
        unfold execute_command_on_device
        rw [hu, hp, hr]
        simp
      · exact ⟨((false, ""), []), .inr (.inr (by simpa using hp))⟩
    · exact ⟨((false, ""), []), .inr (.inl (by simpa using hu))⟩
  · intro o d c
    unfold execute_command_on_device
    by_cases hu : pyTruthy o.tacacsUser = true <;>
      by_cases hp : pyTruthy o.tacacsPass = true <;> simp [hu, hp]
    unfold executeCommandBody sshConnect sshExecuteCommand
    cases o.connect <;> cases o.send <;> simp [pure, Except.pure]
  · intro o d c h
    unfold execute_command_on_device
    rcases h with h | h <;> simp [h]
  · intro o d c hc hu hp
    unfold execute_command_on_device
    have hcn : sshConnect o = false := by
      unfold sshConnect
      cases h : o.connect <;> simp_all
    simp [hu, hp, executeCommandBody, hcn, pure, Except.pure]
  · intro o d c m hc hm hu hp
    unfold execute_command_on_device
    have hcy : sshConnect o = true := by unfold sshConnect; rw [hc]
    simp [hu, hp, executeCommandBody, hcy, sshExecuteCommand, hm, pure, Except.pure]
  · intro o d c s hc hs hu hp
    unfold execute_command_on_device
    have hcy : sshConnect o = true := by unfold sshConnect; rw [hc]
    simp [hu, hp, executeCommandBody, hcy, sshExecuteCommand, hs, pure, Except.pure]

/-- C9 witness: the failure classes at concrete oracles. -/
theorem executor_error_contract_witness :
    execute_command_on_device { tacacsUser := "", tacacsPass := "" } {} "show version"
      = ((false, "TACACS credentials not configured"), []) ∧
    execute_command_on_device
        { tacacsUser := "u", tacacsPass := "p", connect := .authFail } {} "show version"
      = ((false, "Failed to connect to device"), []) ∧
    execute_command_on_device
        { tacacsUser := "u", tacacsPass := "p", connect := .ok,
          send := .raiseInSend "Socket is closed" } {} "show version"
      = ((false, "Socket is closed"), ["show version"]) ∧
    execute_command_on_device
        { tacacsUser := "u", tacacsPass := "p", connect := .ok,
          send := .output "Cisco IOS" } {} "show version"
      = ((true, "Cisco IOS"), ["show version"]) ∧
    (execute_command_on_device
        { tacacsUser := "u", tacacsPass := "p", connect := .ok,
          send := .output "Cisco IOS" } {} "show version").2.length ≤ 1 :=
  ⟨executor_error_contract.2.2.1 _ {} "show version" (.inl (by decide)),
    executor_error_contract.2.2.2.1 _ {} "show version" (by decide) (by decide) (by decide),
    executor_error_contract.2.2.2.2.1 _ {} "show version" "Socket is closed" rfl rfl
      (by decide) (by decide),
    executor_error_contract.2.2.2.2.2 _ {} "show version" "Cisco IOS" rfl rfl
      (by decide) (by decide),
    executor_error_contract.2.1 _ {} "show version"⟩

/-- C1 counterexample.  With three implementation commands and the second
failing at the transport level (`success=false`, no exception, no validation
pattern), the stage runner does NOT stop: all three commands are attempted
(the trace has three entries), three `CommandExecution` rows and three result
entries exist — the claim predicts exactly 2 and no third attempt.  The stage
still returns false, but only through the final aggregate. -/
theorem stage_transport_failfast_counterexample :
    (execute_workflow_stage modelEnv secondCallFailsOracle "implementation"
        threePlainCmds (initialState [])).1 = false ∧
    (execute_workflow_stage modelEnv secondCallFailsOracle "implementation"
        threePlainCmds (initialState [])).2.trace
      = [("implementation", "conf t"), ("implementation", "vlan 100"),
         ("implementation", "name engineering")] ∧
    ((execute_workflow_stage modelEnv secondCallFailsOracle "implementation"
        threePlainCmds (initialState [])).2.cmdDb.filter
          (fun r => r.stage = "implementation")).length = 3 ∧
    ((execute_workflow_stage modelEnv secondCallFailsOracle "implementation"
        threePlainCmds (initialState [])).2.execution.implementation_results).map
        List.length = some 3 := by
  decide

/-- C1 (amended): for the critical stages the early stop happens exactly on a
failed validation (pattern present) or a per-command exception.  Both
directions are stated: a command without a pattern never stops the step
(whatever its transport result), an exception stops it, a failed validation
stops it, and a command WITH a pattern whose validation passes also never
stops it — in particular a transport-level failure alone, with no pattern or
with a passing pattern, does not stop the loop.  Once a step stops, the stage
runner returns false immediately with only that command attempted and nothing
persisted onto the stage blob. -/
theorem stage_failfast_amended :
    (∀ (env : Env) (dyn : List (String × String)) (stage : String) (clock : Nat)
        (b : Bool) (out : String) (cd : CommandData), cd.regexOf = "" →
      (processCommand env dyn stage clock (.result b out) cd).stop = false) ∧
    (∀ (env : Env) (dyn : List (String × String)) (stage : String) (clock : Nat)
        (e : String) (cd : CommandData), isCriticalStage stage = true →
      (processCommand env dyn stage clock (.raise e) cd).stop = true) ∧
    (∀ (env : Env) (dyn : List (String × String)) (stage : String) (clock : Nat)
        (b : Bool) (out : String) (cd : CommandData), isCriticalStage stage = true →
      cd.regexOf ≠ "" →
      (validate_output env.engine env.aiKey out (buildValidationRule dyn cd)).1 = false →
      (processCommand env dyn stage clock (.result b out) cd).stop = true) ∧
    (∀ (env : Env) (dyn : List (String × String)) (stage : String) (clock : Nat)
        (b : Bool) (out : String) (cd : CommandData), cd.regexOf ≠ "" →
      (validate_output env.engine env.aiKey out (buildValidationRule dyn cd)).1 = true →
      (processCommand env dyn stage clock (.result b out) cd).stop = false) ∧
    (∀ (env : Env) (oracle : Oracle) (stage : String) (st : WorldState)
        (cd : CommandData) (rest : List CommandData),
      (processCommand env st.execution.dynamic_params stage st.clock
        (oracle.exec st.trace.length) cd).stop = true →
      execute_workflow_stage env oracle stage (cd :: rest) st =
        (false,
          { st with
            cmdDb := st.cmdDb ++ (processCommand env st.execution.dynamic_params stage
              st.clock (oracle.exec st.trace.length) cd).records
            trace := st.trace ++ [(stage, cd.commandOf)]
            clock := (processCommand env st.execution.dynamic_params stage st.clock
              (oracle.exec st.trace.length) cd).clockAfter })) := by
  refine ⟨?_, ?_, ?_, ?_, ?_⟩
  · intro env dyn stage clock b out cd h
    simp [processCommand, h]
  · intro env dyn stage clock e cd h
    simp [processCommand, h]
  · intro env dyn stage clock b out cd hcrit hre hval
    simp [processCommand, hre, hcrit, hval]
  · intro env dyn stage clock b out cd hre hval
    simp [processCommand, hre, hval]
  · intro env oracle stage st cd rest h
    unfold execute_workflow_stage
    rw [stageLoop_cons]
    dsimp only
    rw [if_pos h]

/-- C1 witness: a validation failure on the first of two pre-check commands
stops the stage immediately — the second command is never attempted and the
runner returns false — while a transport-level failure on a command whose
pattern validates against the (error) output does NOT stop the step. -/
theorem stage_failfast_amended_witness :
    (processCommand modelEnv [] "pre_check" 0 (.result true "link DOWN")
        (.dict { command := "show intf", regex_pattern := "UP" })).stop = true ∧
    (execute_workflow_stage modelEnv
        { exec := fun _ => .result true "link DOWN", updateState := fun _ => none }
        "pre_check"
        [.dict { command := "show intf", regex_pattern := "UP" }, .str "show clock"]
        (initialState [])).1 = false ∧
    (execute_workflow_stage modelEnv
        { exec := fun _ => .result true "link DOWN", updateState := fun _ => none }
        "pre_check"
        [.dict { command := "show intf", regex_pattern := "UP" }, .str "show clock"]
        (initialState [])).2.trace = [("pre_check", "show intf")] ∧
    isCriticalStage "pre_check" = true ∧
    (CommandData.dict { command := "show intf", regex_pattern := "UP" }).regexOf ≠ "" ∧
    (validate_output modelEnv.engine modelEnv.aiKey "link DOWN"
      (buildValidationRule [] (.dict { command := "show intf", regex_pattern := "UP" }))).1
      = false ∧
    (CommandData.dict { command := "ping host", regex_pattern := "refused" }).regexOf
      ≠ "" ∧
    (validate_output modelEnv.engine modelEnv.aiKey "connection refused"
      (buildValidationRule []
        (.dict { command := "ping host", regex_pattern := "refused" }))).1 = true ∧
    (processCommand modelEnv [] "implementation" 0 (.result false "connection refused")
        (.dict { command := "ping host", regex_pattern := "refused" })).stop = false := by
  have h1 := stage_failfast_amended.2.2.1 modelEnv [] "pre_check" 0 true "link DOWN"
    (.dict { command := "show intf", regex_pattern := "UP" }) (by decide) (by decide)
    (by decide)
  have h2 := stage_failfast_amended.2.2.2.2 modelEnv
    { exec := fun _ => .result true "link DOWN", updateState := fun _ => none }
    "pre_check" (initialState [])
    (.dict { command := "show intf", regex_pattern := "UP" }) [.str "show clock"]
    (by decide)
  have h3 := stage_failfast_amended.2.2.2.1 modelEnv [] "implementation" 0 false
    "connection refused" (.dict { command := "ping host", regex_pattern := "refused" })
    (by decide) (by decide)
  refine ⟨h1, ?_, ?_, by decide, by decide, by decide, by decide, by decide, h3⟩
  · rw [h2]
  · rw [h2]
    decide

/-- C4 counterexample.  A pre-check stage whose single command's validation
fails exits the loop early, and on that path the accumulated results are NOT
persisted: the stage returns false but the execution row's stage blob stays
unset, no `workflow_execution.save()` happens, even though one command ran
and one result entry had been accumulated (one `CommandExecution` row
exists). -/
theorem stage_persist_counterexample :
    (execute_workflow_stage modelEnv
        { exec := fun _ => .result true "status: down", updateState := fun _ => none }
        "pre_check" [.dict { command := "show status", regex_pattern := "READY" }]
        (initialState [])).1 = false ∧
    (execute_workflow_stage modelEnv
        { exec := fun _ => .result true "status: down", updateState := fun _ => none }
        "pre_check" [.dict { command := "show status", regex_pattern := "READY" }]
        (initialState [])).2.execution.pre_check_results = none ∧
    (execute_workflow_stage modelEnv
        { exec := fun _ => .result true "status: down", updateState := fun _ => none }
        "pre_check" [.dict { command := "show status", regex_pattern := "READY" }]
        (initialState [])).2.db.pre_check_results = none ∧
    (execute_workflow_stage modelEnv
        { exec := fun _ => .result true "status: down", updateState := fun _ => none }
        "pre_check" [.dict { command := "show status", regex_pattern := "READY" }]
        (initialState [])).2.saves = [] ∧
    ((execute_workflow_stage modelEnv
        { exec := fun _ => .result true "status: down", updateState := fun _ => none }
        "pre_check" [.dict { command := "show status", regex_pattern := "READY" }]
        (initialState [])).2.cmdDb).length = 1 := by
  decide

/-- C4 (amended): results are persisted onto the stage blob exactly when the
command loop runs to completion — an early exit returns false and leaves the
execution row, its persisted copy and the save log untouched.  When the loop
completes, the blob receives the accumulated list and the return value is the
aggregate `all(...)`: true iff every recorded command succeeded at transport
and passed validation; an empty command list vacuously passes (with an empty
blob persisted).  A stopping command never satisfies the aggregate, so an
early exit's `false` is consistent with it. -/
theorem stage_persist_amended :
    (∀ (env : Env) (oracle : Oracle) (stage : String) (cmds : List CommandData)
        (st st1 : WorldState) (results : List StageResult),
      stageLoop env oracle stage cmds [] st = (.completed results, st1) →
      execute_workflow_stage env oracle stage cmds st =
        (results.all StageResult.passOk, setAndSave (setStageResults stage results) st1)) ∧
    (∀ (env : Env) (oracle : Oracle) (stage : String) (cmds : List CommandData)
        (st st1 : WorldState),
      stageLoop env oracle stage cmds [] st = (.earlyExit, st1) →
      execute_workflow_stage env oracle stage cmds st = (false, st1) ∧
      st1.execution = st.execution ∧ st1.db = st.db ∧ st1.saves = st.saves) ∧
    (∀ (env : Env) (oracle : Oracle) (stage : String) (st : WorldState),
      execute_workflow_stage env oracle stage [] st
        = (true, setAndSave (setStageResults stage []) st)) ∧
    (∀ (env : Env) (dyn : List (String × String)) (stage : String) (clock : Nat)
        (outcome : ExecOutcome) (cd : CommandData),
      (processCommand env dyn stage clock outcome cd).stop = true →
      StageResult.passOk (processCommand env dyn stage clock outcome cd).result
        = false) := by
  refine ⟨?_, ?_, ?_, processCommand_stop_not_pass⟩
  · intro env oracle stage cmds st st1 results h
    unfold execute_workflow_stage
    rw [h]
  · intro env oracle stage cmds st st1 h
    obtain ⟨hex, hdb, hsv, _, _, _⟩ := stageLoop_frame env oracle stage cmds [] st
    rw [h] at hex hdb hsv
    refine ⟨?_, hex, hdb, hsv⟩
    unfold execute_workflow_stage
    rw [h]
  · intro env oracle stage st
    rfl

/-- C4 witness. -/
theorem stage_persist_amended_witness :
    stageLoop modelEnv allOkOracle "rollback" [.str "no vlan 100"] [] (initialState [])
      = (.completed [rbWitnessResult], rbWitnessState) ∧
    execute_workflow_stage modelEnv allOkOracle "rollback" [.str "no vlan 100"]
        (initialState [])
      = ([rbWitnessResult].all StageResult.passOk,
         setAndSave (setStageResults "rollback" [rbWitnessResult]) rbWitnessState) ∧
    stageLoop modelEnv downOutputOracle "pre_check" readyCheckCmds [] (initialState [])
      = (.earlyExit,
          (stageLoop modelEnv downOutputOracle "pre_check" readyCheckCmds []
            (initialState [])).2) ∧
    execute_workflow_stage modelEnv downOutputOracle "pre_check" readyCheckCmds
        (initialState [])
      = (false,
          (stageLoop modelEnv downOutputOracle "pre_check" readyCheckCmds []
            (initialState [])).2) := by
  have hloop : stageLoop modelEnv allOkOracle "rollback" [.str "no vlan 100"] []
      (initialState []) = (.completed [rbWitnessResult], rbWitnessState) := by decide
  have hexit : stageLoop modelEnv downOutputOracle "pre_check" readyCheckCmds []
      (initialState [])
    = (.earlyExit,
        (stageLoop modelEnv downOutputOracle "pre_check" readyCheckCmds []
          (initialState [])).2) := by decide
  exact ⟨hloop, stage_persist_amended.1 modelEnv _ "rollback" _ _ _ _ hloop,
    hexit, (stage_persist_amended.2.1 modelEnv _ "pre_check" _ _ _ hexit).1⟩

/-! ## Orchestrator claims -/

/-- C3: when the pre-check stage fails (and the pre-check progress update does
not raise), the orchestrator marks the execution failed at stage `pre_check`
with the fixed error message, a completion timestamp, emits exactly
`execution_started` then `execution_failed`, and returns without ever
invoking the device for any non-pre_check command: the trace contains only
pre_check entries, no rollback or implementation `CommandExecution` row
exists, and the rollback and implementation result blobs stay unset. -/
theorem pre_check_failure_no_rollback (env : Env) (wf : WorkflowDef) (oracle : Oracle)
    (dynP : List (String × String))
    (hU : oracle.updateState "Pre-Check" = none)
    (hPre : (preStage env wf oracle dynP).1 = false) :
    (execute_workflow env wf oracle dynP).1 = "failed" ∧
    (execute_workflow env wf oracle dynP).2.db.status = "failed" ∧
    (execute_workflow env wf oracle dynP).2.db.current_stage = "pre_check" ∧
    (execute_workflow env wf oracle dynP).2.db.error_message
      = some "Pre-check validation failed" ∧
    ((execute_workflow env wf oracle dynP).2.db.completed_at).isSome = true ∧
    (execute_workflow env wf oracle dynP).2.events
      = ["execution_started", "execution_failed"] ∧
    (∀ p ∈ (execute_workflow env wf oracle dynP).2.trace, p.1 = "pre_check") ∧
    (execute_workflow env wf oracle dynP).2.cmdDb.filter
      (fun r => r.stage = "rollback") = [] ∧
    (execute_workflow env wf oracle dynP).2.cmdDb.filter
      (fun r => r.stage = "implementation") = [] ∧
    (execute_workflow env wf oracle dynP).2.db.rollback_results = none ∧
    (execute_workflow env wf oracle dynP).2.db.implementation_results = none := by
  have hw : execute_workflow env wf oracle dynP
      = failPreOutcome (preStage env wf oracle dynP).2 := by
    rw [execute_workflow_unfold, hU]
    dsimp only
    rw [hPre]
    rw [if_pos (show (!false) = true by decide)]
  obtain ⟨hev, _, _, _, _, _, _, _, ⟨recs, hrecs, hrtags⟩, ⟨tr, htr, httags⟩⟩ :=
    execute_workflow_stage_frame env oracle "pre_check" wf.pre_check (afterStart dynP)
  have hrb := execute_workflow_stage_rollback_blob env oracle "pre_check" wf.pre_check
    (afterStart dynP) (by decide)
  have him := execute_workflow_stage_impl_blob env oracle "pre_check" wf.pre_check
    (afterStart dynP) (by decide)
  rw [hw]
  simp only [preStage] at *
  unfold failPreOutcome
  dsimp only [setAndSave, saveExecution, emitEvent, tickState]
  refine ⟨rfl, rfl, rfl, rfl, rfl, ?_, ?_, ?_, ?_, ?_, ?_⟩
  · rw [hev]
    rfl
  · intro p hp
    rw [htr] at hp
    simp only [show (afterStart dynP).trace = [] from rfl, List.nil_append] at hp
    exact httags p hp
  · rw [hrecs]
    simp only [show (afterStart dynP).cmdDb = [] from rfl, List.nil_append]
    exact filter_stage_of_all hrtags (by decide)
  · rw [hrecs]
    simp only [show (afterStart dynP).cmdDb = [] from rfl, List.nil_append]
    exact filter_stage_of_all hrtags (by decide)
  · rw [hrb]
  · rw [him]

/-- C3 witness. -/
theorem pre_check_failure_witness :
    downOutputOracle.updateState "Pre-Check" = none ∧
    (preStage modelEnv preFailWf downOutputOracle []).1 = false ∧
    (execute_workflow modelEnv preFailWf downOutputOracle []).1 = "failed" ∧
    (execute_workflow modelEnv preFailWf downOutputOracle []).2.cmdDb.filter
      (fun r => r.stage = "rollback") = [] :=
  ⟨rfl, by decide,
    (pre_check_failure_no_rollback modelEnv preFailWf downOutputOracle [] rfl
      (by decide)).1,
    (pre_check_failure_no_rollback modelEnv preFailWf downOutputOracle [] rfl
      (by decide)).2.2.2.2.2.2.2.1⟩

theorem implFailOutcome_effects (env : Env) (wf : WorkflowDef) (oracle : Oracle)
    (hnr : oracle.noRaise) (st0 : WorldState) :
    (implFailOutcome env wf oracle st0).1 = "rolled_back" ∧
    (implFailOutcome env wf oracle st0).2.db.status = "rolled_back" ∧
    (implFailOutcome env wf oracle st0).2.db.current_stage = "rollback" ∧
    ((implFailOutcome env wf oracle st0).2.db.completed_at).isSome = true ∧
    (∃ rs, (implFailOutcome env wf oracle st0).2.db.rollback_results = some rs ∧
      rs.length = wf.rollback.length) ∧
    (∃ r ∈ (implFailOutcome env wf oracle st0).2.saves,
      r.status = "rolling_back" ∧ r.current_stage = "rollback") ∧
    (implFailOutcome env wf oracle st0).2.events = st0.events ++ ["execution_failed"] ∧
    (∃ recs, (implFailOutcome env wf oracle st0).2.cmdDb = st0.cmdDb ++ recs ∧
      recs.length = wf.rollback.length ∧ ∀ r ∈ recs, r.stage = "rollback") := by
  obtain ⟨⟨rs, hblob, hlen⟩, hev, hst, hcs, herr, ⟨svs, hsvs⟩, ⟨recs, hdbr, hrlen, hrtags⟩⟩ :=
    rollback_stage_effects env oracle hnr wf.rollback
      (setAndSave (fun ex =>
        { ex with status := "rolling_back", current_stage := "rollback" }) st0)
  unfold implFailOutcome
  dsimp only [setAndSave, saveExecution, emitEvent, tickState]
  refine ⟨rfl, rfl, ?_, rfl, ⟨rs, hblob, hlen⟩, ?_, ?_, ⟨recs, ?_, hrlen, hrtags⟩⟩
  · rw [hcs]
  · refine ⟨{ st0.execution with status := "rolling_back", current_stage := "rollback" },
      ?_, rfl, rfl⟩
    rw [hsvs]
    simp
  · rw [hev]
  · rw [hdbr]

theorem postFailOutcome_effects (env : Env) (wf : WorkflowDef) (oracle : Oracle)
    (hnr : oracle.noRaise) (st0 : WorldState) :
    (postFailOutcome env wf oracle st0).1 = "rolled_back" ∧
    (postFailOutcome env wf oracle st0).2.db.status = "rolled_back" ∧
    (postFailOutcome env wf oracle st0).2.db.current_stage = "rollback" ∧
    (postFailOutcome env wf oracle st0).2.db.error_message
      = some "Post-check validation failed" ∧
    ((postFailOutcome env wf oracle st0).2.db.completed_at).isSome = true ∧
    (∃ rs, (postFailOutcome env wf oracle st0).2.db.rollback_results = some rs ∧
      rs.length = wf.rollback.length) ∧
    (∃ r ∈ (postFailOutcome env wf oracle st0).2.saves,
      r.status = "rolling_back" ∧ r.current_stage = "rollback") ∧
    (postFailOutcome env wf oracle st0).2.events = st0.events ++ ["execution_failed"] ∧
    (∃ recs, (postFailOutcome env wf oracle st0).2.cmdDb = st0.cmdDb ++ recs ∧
      recs.length = wf.rollback.length ∧ ∀ r ∈ recs, r.stage = "rollback") := by
  obtain ⟨⟨rs, hblob, hlen⟩, hev, hst, hcs, herr, ⟨svs, hsvs⟩, ⟨recs, hdbr, hrlen, hrtags⟩⟩ :=
    rollback_stage_effects env oracle hnr wf.rollback
      (setAndSave (fun ex =>
        { ex with status := "rolling_back", current_stage := "rollback" }) st0)
  unfold postFailOutcome
  dsimp only [setAndSave, saveExecution, emitEvent, tickState]
  refine ⟨rfl, rfl, ?_, rfl, rfl, ⟨rs, hblob, hlen⟩, ?_, ?_, ⟨recs, ?_, hrlen, hrtags⟩⟩
  · rw [hcs]
  · refine ⟨{ st0.execution with status := "rolling_back", current_stage := "rollback" },
      ?_, rfl, rfl⟩
    rw [hsvs]
    simp
  · rw [hev]
  · rw [hdbr]

/-- C2: whenever the implementation stage or the post-check stage fails (and
the relevant progress updates do not raise, with a non-raising executor as
`execute_command_on_device` guarantees), the orchestrator persists a record
with status `rolling_back` and current_stage `rollback`, runs the rollback
stage to completion regardless of the rollback commands' outcomes — one
result-blob entry and one `CommandExecution` row per rollback command — and
the final persisted status is `rolled_back`, never `failed`. -/
theorem rollback_on_stage_failure (env : Env) (wf : WorkflowDef) (oracle : Oracle)
    (dynP : List (String × String))
    (hnr : oracle.noRaise)
    (hU1 : oracle.updateState "Pre-Check" = none)
    (hPre : (preStage env wf oracle dynP).1 = true)
    (hU2 : oracle.updateState "Implementation" = none)
    (hfail : ((implStage env wf oracle dynP).1 = false ∧
        oracle.updateState "Rollback" = none) ∨
      ((implStage env wf oracle dynP).1 = true ∧
        oracle.updateState "Post-Check" = none ∧
        (postStage env wf oracle dynP).1 = false)) :
    (execute_workflow env wf oracle dynP).1 = "rolled_back" ∧
    (execute_workflow env wf oracle dynP).2.db.status = "rolled_back" ∧
    (execute_workflow env wf oracle dynP).2.db.status ≠ "failed" ∧
    (execute_workflow env wf oracle dynP).2.db.current_stage = "rollback" ∧
    ((execute_workflow env wf oracle dynP).2.db.completed_at).isSome = true ∧
    (∃ rs, (execute_workflow env wf oracle dynP).2.db.rollback_results = some rs ∧
      rs.length = wf.rollback.length) ∧
    (∃ r ∈ (execute_workflow env wf oracle dynP).2.saves,
      r.status = "rolling_back" ∧ r.current_stage = "rollback") ∧
    ((execute_workflow env wf oracle dynP).2.cmdDb.filter
      (fun r => r.stage = "rollback")).length = wf.rollback.length ∧
    "execution_failed" ∈ (execute_workflow env wf oracle dynP).2.events := by
  obtain ⟨_, _, _, _, _, _, _, _, ⟨precs, hpcmd0, hptags⟩, _⟩ :=
    execute_workflow_stage_frame env oracle "pre_check" wf.pre_check (afterStart dynP)
  have hpcmd : (preStage env wf oracle dynP).2.cmdDb
      = (afterStart dynP).cmdDb ++ precs := hpcmd0
  obtain ⟨_, _, _, _, _, _, _, _, ⟨irecs, hicmd0, hitags⟩, _⟩ :=
    execute_workflow_stage_frame env oracle "implementation" wf.implementation
      (preStage env wf oracle dynP).2
  have hicmd : (implStage env wf oracle dynP).2.cmdDb
      = (preStage env wf oracle dynP).2.cmdDb ++ irecs := hicmd0
  rcases hfail with ⟨hImpl, hU3⟩ | ⟨hImpl, hU4, hPost⟩
  · have h1 : execute_workflow env wf oracle dynP
        = implFailOutcome env wf oracle (implStage env wf oracle dynP).2 := by
      rw [execute_workflow_unfold, hU1]
      dsimp only
      rw [hPre, if_neg (by decide)]
      rw [hU2]
      dsimp only
      rw [hImpl, if_pos (by decide)]
      rw [hU3]
    obtain ⟨e1, e2, e3, e4, hblob, hsave, hevents, ⟨recs, hcmd, hrlen, hrtags⟩⟩ :=
      implFailOutcome_effects env wf oracle hnr (implStage env wf oracle dynP).2
    rw [h1]
    refine ⟨e1, e2, ?_, e3, e4, hblob, hsave, ?_, ?_⟩
    · rw [e2]; decide
    · rw [hcmd, hicmd, hpcmd, show (afterStart dynP).cmdDb = [] from rfl]
      simp only [List.nil_append, List.filter_append]
      rw [filter_stage_of_all hptags (by decide), filter_stage_of_all hitags (by decide),
        filter_stage_of_all_eq hrtags]
      simp [hrlen]
    · rw [hevents]
      simp
  · obtain ⟨_, _, _, _, _, _, _, _, ⟨porecs, hpocmd0, hpotags⟩, _⟩ :=
      execute_workflow_stage_frame env oracle "post_check" wf.post_check
        (implStage env wf oracle dynP).2
    have hpocmd : (postStage env wf oracle dynP).2.cmdDb
        = (implStage env wf oracle dynP).2.cmdDb ++ porecs := hpocmd0
    have h1 : execute_workflow env wf oracle dynP
        = postFailOutcome env wf oracle (postStage env wf oracle dynP).2 := by
      rw [execute_workflow_unfold, hU1]
      dsimp only
      rw [hPre, if_neg (by decide)]
      rw [hU2]
      dsimp only
      rw [hImpl, if_neg (by decide)]
      rw [hU4]
      dsimp only
      rw [hPost, if_pos (by decide)]
    obtain ⟨e1, e2, e3, eerr, e4, hblob, hsave, hevents, ⟨recs, hcmd, hrlen, hrtags⟩⟩ :=
      postFailOutcome_effects env wf oracle hnr (postStage env wf oracle dynP).2
    rw [h1]
    refine ⟨e1, e2, ?_, e3, e4, hblob, hsave, ?_, ?_⟩
    · rw [e2]; decide
    · rw [hcmd, hpocmd, hicmd, hpcmd, show (afterStart dynP).cmdDb = [] from rfl]
      simp only [List.nil_append, List.filter_append]
      rw [filter_stage_of_all hptags (by decide), filter_stage_of_all hitags (by decide),
        filter_stage_of_all hpotags (by decide), filter_stage_of_all_eq hrtags]
      simp [hrlen]
    · rw [hevents]
      simp

/-- C2 witness. -/
theorem rollback_on_stage_failure_witness :
    (preStage modelEnv implFailWf allOkOracle []).1 = true ∧
    (implStage modelEnv implFailWf allOkOracle []).1 = false ∧
    (execute_workflow modelEnv implFailWf allOkOracle []).1 = "rolled_back" ∧
    ((execute_workflow modelEnv implFailWf allOkOracle []).2.cmdDb.filter
      (fun r => r.stage = "rollback")).length = 2 := by
  have h := rollback_on_stage_failure modelEnv implFailWf allOkOracle []
    (fun n => ⟨true, "ok", rfl⟩) rfl (by decide) rfl (.inl ⟨by decide, rfl⟩)
  exact ⟨by decide, by decide, h.1, by simpa using h.2.2.2.2.2.2.2.1⟩

/-- C5 (amended): no exception ever escapes `execute_workflow`.  Either the
body returns normally and that is the task's result, or the body raises and
the top-level handler persists a terminal record: status `failed`, the
exception text as `error_message`, `completed_at` set.  However, on that
exception path NO notification is emitted — the event log is exactly whatever
the body had emitted before raising (the `except` handler contains no
webhook call). -/
theorem orchestrator_top_level_catch (env : Env) (wf : WorkflowDef) (oracle : Oracle)
    (dynP : List (String × String)) :
    (∃ r, executeWorkflowBody env wf oracle (initialState dynP) = .ok r ∧
      execute_workflow env wf oracle dynP = r) ∨
    (∃ e st, executeWorkflowBody env wf oracle (initialState dynP) = .error (e, st) ∧
      (execute_workflow env wf oracle dynP).1 = "error" ∧
      (execute_workflow env wf oracle dynP).2.db.status = "failed" ∧
      (execute_workflow env wf oracle dynP).2.db.error_message = some e ∧
      ((execute_workflow env wf oracle dynP).2.db.completed_at).isSome = true ∧
      (execute_workflow env wf oracle dynP).2.events = st.events) := by
  unfold execute_workflow
  cases h : executeWorkflowBody env wf oracle (initialState dynP) with
  | ok r => exact .inl ⟨r, rfl, rfl⟩
  | error p =>
      cases p with
      | mk e st => exact .inr ⟨e, st, rfl, rfl, rfl, rfl, rfl, rfl⟩

/-- C5 counterexample.  When an exception reaches the top-level handler (here
the first progress update raising after `execution_started` was emitted), the
run ends in a persisted terminal `failed` record — but no `execution_failed`
(or any other) notification is emitted on this failure path: the event log
still contains only `execution_started`.  This contradicts the claim that
every failure path ends in a persisted terminal state PLUS a notification. -/
theorem orchestrator_no_notification_counterexample :
    (execute_workflow modelEnv preFailWf brokerFailOracle []).1 = "error" ∧
    (execute_workflow modelEnv preFailWf brokerFailOracle []).2.db.status = "failed" ∧
    (execute_workflow modelEnv preFailWf brokerFailOracle []).2.db.error_message
      = some "broker unreachable" ∧
    ((execute_workflow modelEnv preFailWf brokerFailOracle []).2.db.completed_at).isSome
      = true ∧
    (execute_workflow modelEnv preFailWf brokerFailOracle []).2.events
      = ["execution_started"] ∧
    "execution_failed" ∉ (execute_workflow modelEnv preFailWf brokerFailOracle []).2.events := by
  decide
